import Mathlib

/-!
Verification of the electron-website-updater webhook router.

The development embeds the branch classifier and event router of the
repository (src/routes/webhook.js and the historical variants in
src/unnamed/part_000, part_001, together with the dispatch senders of
src/utils/utils.js and src/unnamed/part_003) as executable Lean
functions, and settles the frozen claims about them.

Conventions used by the embedding:
* Strings are worked on through their character lists.
* A JavaScript exception that escapes a handler is modelled with
  Option: none stands for a thrown error that no catch intercepts.
* The left-to-right search behaviour of the unanchored regular
  expression (?:refs\/heads\/)?(\d+)-x-y is embedded as a scan for the
  leftmost maximal digit run that is immediately followed by "-x-y";
  the optional non-capturing prefix contains no digit, so it can never
  change which digit run the leftmost match captures.
-/

/-- Numeric value of a digit run, as parseInt computes it on an
all-digit string (leading zeros allowed). -/
def digitsVal (l : List Char) : Nat :=
  l.foldl (fun a c => 10 * a + (c.toNat - 48)) 0

/-- The literal "-x-y" that must follow the captured digits. -/
def xyTail : List Char := ['-', 'x', '-', 'y']

/-- Leftmost match of the unanchored pattern (?:refs\/heads\/)?(\d+)-x-y:
scan positions left to right, at each position take the maximal digit
run and require "-x-y" right after it.  Mirrors RegExp.prototype.exec
on the pattern used by getMajor / isLatest. -/
def majorScan : List Char → Option Nat
  | [] => none
  | c :: rest =>
    let run := (c :: rest).takeWhile Char.isDigit
    if run ≠ [] ∧ xyTail.isPrefixOf ((c :: rest).drop run.length)
    then some (digitsVal run)
    else majorScan rest

/-- getMajor from src/unnamed/part_000 (and the inlined parse inside
isLatest in src/routes/webhook.js): the captured major of the first
regex match, none when exec returns null and the destructuring throws. -/
def getMajor (s : String) : Option Nat :=
  majorScan s.data

/-- isLatest from src/routes/webhook.js and src/unnamed/part_000: parse
both refs, compare the majors; any parse failure is caught and turned
into false. -/
def isLatest (latest current : String) : Bool :=
  match getMajor latest, getMajor current with
  | some l, some c => if c < l then false else true
  | _, _ => false

/-- String.prototype.replace with a plain-string pattern removes the
first occurrence only; this is the list-level worker. -/
def removeFirst (pat : List Char) : List Char → List Char
  | [] => []
  | c :: rest =>
    if pat.isPrefixOf (c :: rest) then (c :: rest).drop pat.length
    else c :: removeFirst pat rest

/-- payload.ref.replace with the literal "refs/heads/" and the empty
replacement, exactly as every push handler computes the branch name. -/
def stripRH (s : String) : String :=
  String.mk (removeFirst ("refs/heads/".data) s.data)

/-- The anchored gate regex ^\d\d?-x-y of shouldSendEvent in
src/unnamed/part_000: one or two leading digits, then "-x-y",
anything may follow. -/
def canonicalTest : List Char → Bool
  | c1 :: c2 :: rest =>
    c1.isDigit && ((c2.isDigit && xyTail.isPrefixOf rest) || xyTail.isPrefixOf (c2 :: rest))
  | _ => false

/-- String form of the gate test. -/
def canonicalTestS (s : String) : Bool :=
  canonicalTest s.data

/-- One commit of a push payload: the three path sets used by the
handlers, in payload order. -/
structure Commit where
  added : List String
  modified : List String
  removed : List String
deriving DecidableEq

/-- The part of a GitHub push payload the handlers read. -/
structure PushEvent where
  ref : String
  after : String
  repoFullName : String
  commits : List Commit
deriving DecidableEq

/-- Contiguous substring test on character lists. -/
def hasSub (pat : List Char) : List Char → Bool
  | [] => pat.isEmpty
  | c :: rest => pat.isPrefixOf (c :: rest) || hasSub pat rest

/-- file.includes(folder): substring containment. -/
def pathHasFolder (folder file : String) : Bool :=
  hasSub folder.data file.data

/-- areFilesInFolderChanged from src/routes/webhook.js (identical in
part_000 and part_001): some commit has some path containing the
folder, checking modified, added, removed in that order. -/
def areFilesInFolderChanged (p : PushEvent) (folder : String) : Bool :=
  p.commits.any fun c =>
    c.modified.any (pathHasFolder folder) ||
    c.added.any (pathHasFolder folder) ||
    c.removed.any (pathHasFolder folder)

/-- A dispatch intent as handed to the dispatch sender: target owner
and repo, event type, and the client payload (sha, and a branch field
for the dual-event routers).  The single-event paths carry no branch. -/
structure Intent where
  owner : String
  repo : String
  eventType : String
  sha : String
  branch : Option String
deriving DecidableEq

/-- Router of src/routes/webhook.js (Policy A): gate on source repo and
docs-touching only; always emit the branch event, add the current event
when isLatest holds.  SOURCE_REPO is "electron", TARGET_REPO is
"electronjs.org-new". -/
def pushIntentsA (owner latestBranch : String) (p : PushEvent) : List Intent :=
  if p.repoFullName == owner ++ "/electron" && areFilesInFolderChanged p "docs" then
    let branch := stripRH p.ref
    let b : Intent := ⟨owner, "electronjs.org-new", "doc_changes_branches", p.after, some branch⟩
    if isLatest latestBranch p.ref then
      [b, ⟨owner, "electronjs.org-new", "doc_changes", p.after, some branch⟩]
    else [b]
  else []

/-- shouldSendEvent from src/unnamed/part_000, checks in source order:
source repo, anchored release-line test, docs-touching, and the
future-line guard.  none models the uncaught exception thrown when the
final guard parses an unparsable branch. -/
def shouldSendEvent (owner stableBranch : String) (p : PushEvent) : Option Bool :=
  let branchCommit := stripRH p.ref
  if p.repoFullName != owner ++ "/electron" then some false
  else if !(canonicalTestS branchCommit) then some false
  else if !(areFilesInFolderChanged p "docs") then some false
  else
    match getMajor branchCommit, getMajor stableBranch with
    | some mc, some ms => if ms < mc then some false else some true
    | _, _ => none

/-- Router of src/unnamed/part_000 (Policy B): the shouldSendEvent gate,
then the same dual-event emission as Policy A; TARGET_REPO is
"website".  none models the handler crashing inside the gate. -/
def pushIntentsB (owner stableBranch : String) (p : PushEvent) : Option (List Intent) :=
  match shouldSendEvent owner stableBranch p with
  | none => none
  | some false => some []
  | some true =>
    let branch := stripRH p.ref
    let b : Intent := ⟨owner, "website", "doc_changes_branches", p.after, some branch⟩
    if isLatest stableBranch p.ref then
      some [b, ⟨owner, "website", "doc_changes", p.after, some branch⟩]
    else some [b]

/-- Router of src/unnamed/part_001 (Policy C): dispatch a single
sha-only doc_changes event when the ref equals the expected current
branch ref, the repo matches, and docs were touched. -/
def pushIntentsC (owner latestBranch : String) (p : PushEvent) : List Intent :=
  if p.ref == "refs/heads/" ++ latestBranch &&
     p.repoFullName == owner ++ "/electron" &&
     areFilesInFolderChanged p "docs" then
    [⟨owner, "electronjs.org-new", "doc_changes", p.after, none⟩]
  else []

/-- The part of a GitHub release payload the release handler reads. -/
structure ReleaseEvent where
  action : String
  tagName : String
  draft : Bool
  prerelease : Bool
  repoFullName : String
deriving DecidableEq

/-- The fresh snapshot fetched by getLatestInformation: the published
version string and the branch derived from it. -/
structure LatestInfo where
  version : String
  branch : String
deriving DecidableEq

/-- tag_name.replace with the anchored pattern for a single leading
lowercase letter v. -/
def stripV (s : String) : String :=
  match s.data with
  | 'v' :: rest => String.mk rest
  | _ => s

/-- Number.MAX_SAFE_INTEGER; the semver constructor rejects any
component above this bound. -/
def maxSafeInteger : Nat := 9007199254740991

/-- A component acceptable to the strict semver parser: all digits, no
leading zero unless it is exactly "0", and within the safe-integer
bound. -/
def canonicalNum : List Char → Bool
  | [] => false
  | c :: rest =>
    (c :: rest).all Char.isDigit &&
    (c != '0' || rest.isEmpty) &&
    digitsVal (c :: rest) ≤ maxSafeInteger

/-- Fuel-driven worker for coerceFindRun; the fuel starts at the list
length, which bounds the number of scan steps. -/
def coerceFindRunF : Nat → List Char → Option (List Char × List Char)
  | 0, _ => none
  | _, [] => none
  | fuel + 1, c :: rest =>
    if c.isDigit then
      let run := rest.takeWhile Char.isDigit
      if run.length + 1 ≤ 16 then some (c :: run, rest.drop run.length)
      else coerceFindRunF fuel (rest.drop run.length)
    else coerceFindRunF fuel rest

/-- The leftmost digit run usable as the major of semver.coerce: runs
longer than 16 digits cannot satisfy the coercion pattern and are
skipped whole, because no new run can begin inside them. -/
def coerceFindRun (l : List Char) : Option (List Char × List Char) :=
  coerceFindRunF l.length l

/-- An optional ".digits" component of the coercion pattern; a run of
more than 16 digits makes the group unmatchable, so it is treated as
absent, exactly as the backtracking regex does. -/
def coerceComponent : List Char → Option (List Char × List Char)
  | '.' :: c :: rest =>
    if c.isDigit then
      let run := (c :: rest).takeWhile Char.isDigit
      if run.length ≤ 16 then some (run, (c :: rest).drop run.length) else none
    else none
  | _ => none

/-- semver.coerce followed by the strict parse it performs internally:
the coerced (major, minor, patch) triple, or none when coerce returns
null (no usable digit run, a leading zero, or an unsafe component). -/
def coerceTriple (s : String) : Option (Nat × Nat × Nat) :=
  match coerceFindRun s.data with
  | none => none
  | some (majRun, t1) =>
    let minPair := match coerceComponent t1 with
      | some (r, t) => (r, t)
      | none => (['0'], t1)
    let patPair := match coerceComponent minPair.2 with
      | some (r, t) => (r, t)
      | none => (['0'], minPair.2)
    if canonicalNum majRun && canonicalNum minPair.1 && canonicalNum patPair.1
    then some (digitsVal majRun, digitsVal minPair.1, digitsVal patPair.1)
    else none

/-- The version string the semver object prints: major.minor.patch. -/
def renderV (t : Nat × Nat × Nat) : String :=
  toString t.1 ++ "." ++ toString t.2.1 ++ "." ++ toString t.2.2

/-- The release handler's stability test: coercion of the stripped tag
round-trips to the identical string.  false also covers the case where
coerce returns null (where the handler itself crashes). -/
def stableRoundTrip (tag : String) : Bool :=
  match coerceTriple tag with
  | some t => renderV t == tag
  | none => false

/-- Split a character list at every dot. -/
def splitDots : List Char → List (List Char)
  | [] => [[]]
  | '.' :: rest => [] :: splitDots rest
  | c :: rest =>
    match splitDots rest with
    | h :: t => (c :: h) :: t
    | [] => [[c]]

/-- Strict parse of a fully-stable version string into its triple; the
semver library accepts more (pre-release suffixes), but the handler
only compares such strings when the latest published version is itself
assumed stable. -/
def parseStableTriple (s : String) : Option (Nat × Nat × Nat) :=
  match splitDots s.data with
  | [a, b, c] =>
    if canonicalNum a && canonicalNum b && canonicalNum c
    then some (digitsVal a, digitsVal b, digitsVal c)
    else none
  | _ => none

/-- Lexicographic order on version triples, the semver order restricted
to stable versions. -/
def tripleLe (a b : Nat × Nat × Nat) : Bool :=
  decide (a.1 < b.1) ||
  (a.1 == b.1 && (decide (a.2.1 < b.2.1) ||
    (a.2.1 == b.2.1 && decide (a.2.2 ≤ b.2.2))))

/-- Release handler of src/unnamed/part_001 paired with the 3-argument
dispatch sender: the dispatch intents issued and the HTTP response.
none as response models the uncaught exception when coerce returns
null, or when semver.gte is reached with an unparsable latest version.
The resolver argument stands for the external getSHAFromTag lookup.
When the stability test has succeeded the tag string equals the
rendered coercion, so the comparison is taken on the coerced triple. -/
def releaseResultP1 (owner : String) (rv : String → String → String)
    (info : LatestInfo) (e : ReleaseEvent) : List Intent × Option Nat :=
  let tag := stripV e.tagName
  match coerceTriple tag with
  | none => ([], none)
  | some t =>
    if e.action == "released" && !e.draft && !e.prerelease && (renderV t == tag) then
      match parseStableTriple info.version with
      | none => ([], none)
      | some v =>
        if tripleLe v t then
          ([⟨owner, "electronjs.org-new", "doc_changes", rv e.repoFullName e.tagName, none⟩], some 200)
        else ([], some 200)
    else ([], some 200)

/-- An inbound webhook request past the integrity gate, classified by
its X-GitHub-Event header. -/
inductive Inbound where
  | ping
  | push (p : PushEvent)
  | release (e : ReleaseEvent)
  | other (name : String)
deriving DecidableEq

/-- Event router of src/routes/webhook.js: ping answers 200, the push
handler always reaches its final res.status(200) (isLatest catches its
own parse errors and the paired sender catches dispatch errors), the
release handler only logs, and unrecognized events fall through to the
next route (none). -/
def eventResponseCurrent : Inbound → Option Nat
  | .ping => some 200
  | .push _ => some 200
  | .release _ => some 200
  | .other _ => none

/-- Event router of src/unnamed/part_001 paired with the catching
sender of src/utils/utils.js: ping and push always answer 200, the
release handler may crash before responding, unrecognized events fall
through. -/
def eventResponseP1 (owner : String) (rv : String → String → String)
    (info : LatestInfo) : Inbound → Option Nat
  | .ping => some 200
  | .push _ => some 200
  | .release e => (releaseResultP1 owner rv info e).2
  | .other _ => none

/-- Observable outcome of one dispatch-sender call: the error it lets
escape to its caller, if any. -/
structure SendOutcome where
  raised : Option String
deriving DecidableEq

/-- sendRepositoryDispatchEvent of src/utils/utils.js: the outbound
createDispatchEvent call sits in a try block whose catch only logs, so
no outcome of the network call ever escapes. -/
def sendDispatchCurrent (net : Except String Unit) : SendOutcome :=
  match net with
  | .ok _ => ⟨none⟩
  | .error _ => ⟨none⟩

/-- sendRepositoryDispatchEvent of src/unnamed/part_003: the awaited
createDispatchEvent call is returned directly with no try/catch, so a
failing call rejects the caller. -/
def sendDispatchP3 (net : Except String Unit) : SendOutcome :=
  match net with
  | .ok _ => ⟨none⟩
  | .error e => ⟨some e⟩

/-- Response of an inbound handler that awaits one dispatch-sender
call: 200 when the sender returns, nothing when it raises. -/
def handlerAfterSend (s : SendOutcome) : Option Nat :=
  match s.raised with
  | none => some 200
  | some _ => none

/-- The four gate conditions exactly as claim C3 words them: source
repo, docs-touching, the ref matches the unanchored canonical pattern
(?:refs\/heads\/)?(\d+)-x-y, and the matched major does not exceed the
latest branch's major.  Stated from the claim, to be compared against
the shouldSendEvent gate of src/unnamed/part_000. -/
def specGateC3 (owner latest : String) (p : PushEvent) : Prop :=
  p.repoFullName = owner ++ "/electron" ∧
  areFilesInFolderChanged p "docs" = true ∧
  ∃ mc ms, getMajor p.ref = some mc ∧ getMajor latest = some ms ∧ mc ≤ ms

/-- A commit whose added set touches the docs folder. -/
def docsCommit : Commit := ⟨["docs/api/app.md"], [], []⟩

/-- A docs-touching push from the upstream repository on the given ref. -/
def mkPush (ref : String) : PushEvent :=
  ⟨ref, "c0ffee01", "electron/electron", [docsCommit]⟩

/-- An upstream push whose commits touch no docs path. -/
def srcPush : PushEvent :=
  ⟨"refs/heads/12-x-y", "c0ffee02", "electron/electron", [⟨["src/main.cc"], ["lib/app.ts"], []⟩]⟩

/-- The latest-information snapshot used by the historical tests. -/
def infoLatest : LatestInfo := ⟨"12.0.6", "12-x-y"⟩

/-- A concrete stand-in for the external tag-to-SHA resolver. -/
def shaOfTag : String → String → String := fun _ _ => "feedc0de"

/-- A stable release above the known latest version. -/
def relGood : ReleaseEvent := ⟨"released", "v12.0.7", false, false, "electron/electron"⟩

/-- A release whose tag has no coercible version at all. -/
def relJunk : ReleaseEvent := ⟨"released", "vjunk", false, false, "electron/electron"⟩


/-- The part_000 gate accepts exactly: right repo, anchored release-line
test on the stripped ref, docs touched, and a parsed major not above
the parsed latest major. -/
theorem shouldSendEvent_true_iff (owner stable : String) (p : PushEvent) :
    shouldSendEvent owner stable p = some true ↔
      (p.repoFullName = owner ++ "/electron" ∧
       canonicalTestS (stripRH p.ref) = true ∧
       areFilesInFolderChanged p "docs" = true ∧
       ∃ mc ms, getMajor (stripRH p.ref) = some mc ∧ getMajor stable = some ms ∧ mc ≤ ms) := by
  unfold shouldSendEvent
  by_cases hrepo : p.repoFullName = owner ++ "/electron"
  case neg =>
    have hb : (p.repoFullName != owner ++ "/electron") = true := by
      simpa [bne_iff_ne] using hrepo
    simp [hb, hrepo]
  case pos =>
    have hb : (p.repoFullName != owner ++ "/electron") = false := by
      simp [bne_iff_ne, hrepo]
    simp only [hb, Bool.false_eq_true, if_false]
    by_cases hcanon : canonicalTestS (stripRH p.ref) = true
    · by_cases hdocs : areFilesInFolderChanged p "docs" = true
      · simp only [hcanon, hdocs, Bool.not_true, Bool.false_eq_true, if_false]
        cases hmc : getMajor (stripRH p.ref) <;> cases hms : getMajor stable <;>
          simp [hrepo, hcanon, hdocs, hmc, hms]
      · have hdf : areFilesInFolderChanged p "docs" = false := by
          simpa using hdocs
        simp [hcanon, hdf, hrepo]
    · have hcf : canonicalTestS (stripRH p.ref) = false := by
        simpa using hcanon
      simp [hcf, hrepo]

/-- The part_000 router emits an intent exactly when its gate passes. -/
theorem pushIntentsB_ne_nil_iff (owner stable : String) (p : PushEvent) :
    (∃ l, pushIntentsB owner stable p = some l ∧ l ≠ []) ↔
      shouldSendEvent owner stable p = some true := by
  unfold pushIntentsB
  cases hs : shouldSendEvent owner stable p with
  | none => simp
  | some b =>
    cases b
    · simp
    · constructor
      · intro _
        rfl
      · intro _
        cases hlat : isLatest stable p.ref <;> simp [hlat]

/-- C9: isLatest answers false, rather than raising, whenever either
ref fails to parse under the release-line pattern. -/
theorem c9_isLatest_false_on_parse_failure (latest current : String)
    (h : getMajor latest = none ∨ getMajor current = none) :
    isLatest latest current = false := by
  cases hl : getMajor latest <;> cases hc : getMajor current <;>
    simp_all [isLatest]

/-- Witness for C9 at a malformed latest ref. -/
theorem c9_witness :
    getMajor "refs/heads/main" = none ∧
    isLatest "refs/heads/main" "refs/heads/12-x-y" = false :=
  ⟨by decide, c9_isLatest_false_on_parse_failure _ _ (Or.inl (by decide))⟩

/-- C7: a push that touches no docs path yields zero intents from all
three routers, regardless of its ref. -/
theorem c7_no_docs_no_intents (owner lA lB lC : String) (p : PushEvent)
    (h : areFilesInFolderChanged p "docs" = false) :
    pushIntentsA owner lA p = [] ∧
    pushIntentsB owner lB p = some [] ∧
    pushIntentsC owner lC p = [] := by
  refine ⟨?_, ?_, ?_⟩
  · unfold pushIntentsA
    simp [h]
  · have hsf : shouldSendEvent owner lB p = some false := by
      unfold shouldSendEvent
      simp only [h, Bool.not_false, if_true]
      split
      · rfl
      · split <;> rfl
    unfold pushIntentsB
    rw [hsf]
  · unfold pushIntentsC
    simp [h]

/-- Witness for C7 on an upstream push touching only non-docs paths. -/
theorem c7_witness :
    areFilesInFolderChanged srcPush "docs" = false ∧
    pushIntentsA "electron" "12-x-y" srcPush = [] ∧
    pushIntentsB "electron" "12-x-y" srcPush = some [] ∧
    pushIntentsC "electron" "12-x-y" srcPush = [] := by
  have h := c7_no_docs_no_intents "electron" "12-x-y" "12-x-y" "12-x-y" srcPush (by decide)
  exact ⟨by decide, h.1, h.2.1, h.2.2⟩

/-- C10: the current router's gate checks only the source repo and the
docs condition, so a branch event is always emitted, for any ref, with
the first refs/heads/ occurrence removed from the branch field. -/
theorem c10_branch_always_emitted (owner latest : String) (p : PushEvent)
    (hrepo : p.repoFullName = owner ++ "/electron")
    (hdocs : areFilesInFolderChanged p "docs" = true) :
    (pushIntentsA owner latest p).head? =
      some ⟨owner, "electronjs.org-new", "doc_changes_branches", p.after, some (stripRH p.ref)⟩ := by
  unfold pushIntentsA
  simp only [hrepo, hdocs, beq_self_eq_true, Bool.and_self, if_true]
  split <;> rfl

/-- Witness for C10 on the non-canonical ref refs/heads/main. -/
theorem c10_witness :
    (pushIntentsA "electron" "12-x-y" (mkPush "refs/heads/main")).head? =
      some ⟨"electron", "electronjs.org-new", "doc_changes_branches", "c0ffee01", some "main"⟩ := by
  have h := c10_branch_always_emitted "electron" "12-x-y" (mkPush "refs/heads/main")
    (by decide) (by decide)
  exact h.trans (by decide)

/-- C1 fails on the code: the release-line pattern is unanchored, so on
a backport ref it matches the interior substring; parseMajor succeeds
with major 12, isLatest answers true against latest 12-x-y, and the
current router does emit the doc_changes (CURRENT) intent for a docs
push on that ref. -/
theorem c1_counterexample :
    getMajor "refs/heads/trop/12-x-y-bp-13" = some 12 ∧
    isLatest "12-x-y" "refs/heads/trop/12-x-y-bp-13" = true ∧
    (pushIntentsA "electron" "12-x-y" (mkPush "refs/heads/trop/12-x-y-bp-13")).any
      (fun i => i.eventType == "doc_changes") = true := by
  decide

/-- C1 amended: on any ref the pattern matches anywhere (in particular
interior-only backport refs), parseMajor does not fail but returns the
matched major m; when the latest branch parses to L with L at most m,
isLatest is true, the current (Policy A) router emits the doc_changes
intent for a docs push from upstream, and only the part_000 (Policy B)
gate, whose anchored test the stripped ref fails, yields zero intents. -/
theorem c1_trop_interior_match (owner latest : String) (p : PushEvent) (m L : Nat)
    (h1 : getMajor p.ref = some m) (h2 : getMajor latest = some L) (h3 : L ≤ m)
    (hrepo : p.repoFullName = owner ++ "/electron")
    (hdocs : areFilesInFolderChanged p "docs" = true)
    (hnc : canonicalTestS (stripRH p.ref) = false) :
    isLatest latest p.ref = true ∧
    (pushIntentsA owner latest p).any (fun i => i.eventType == "doc_changes") = true ∧
    pushIntentsB owner latest p = some [] := by
  have hnl : ¬ m < L := by omega
  have hlat : isLatest latest p.ref = true := by
    unfold isLatest
    rw [h2, h1]
    simp [hnl]
  refine ⟨hlat, ?_, ?_⟩
  · unfold pushIntentsA
    simp [hrepo, hdocs, hlat]
  · have hsf : shouldSendEvent owner latest p = some false := by
      unfold shouldSendEvent
      simp [hnc, hrepo]
    unfold pushIntentsB
    rw [hsf]

/-- Witness for the amended C1 on a backport ref of a newer line. -/
theorem c1_witness :
    isLatest "12-x-y" "refs/heads/trop/13-x-y-bp-2" = true ∧
    (pushIntentsA "electron" "12-x-y" (mkPush "refs/heads/trop/13-x-y-bp-2")).any
      (fun i => i.eventType == "doc_changes") = true ∧
    pushIntentsB "electron" "12-x-y" (mkPush "refs/heads/trop/13-x-y-bp-2") = some [] :=
  c1_trop_interior_match "electron" "12-x-y" (mkPush "refs/heads/trop/13-x-y-bp-2") 13 12
    (by decide) (by decide) (by decide) (by decide) (by decide) (by decide)

/-- C2 fails on the code for the release line 100: the ref and the
latest branch have equal majors and the push passes repo and docs
conditions, yet Policy B emits zero intents because its gate pattern
accepts at most two leading digits. -/
theorem c2_counterexample :
    getMajor "refs/heads/100-x-y" = some 100 ∧
    getMajor "100-x-y" = some 100 ∧
    (mkPush "refs/heads/100-x-y").repoFullName = "electron" ++ "/electron" ∧
    areFilesInFolderChanged (mkPush "refs/heads/100-x-y") "docs" = true ∧
    pushIntentsB "electron" "100-x-y" (mkPush "refs/heads/100-x-y") = some [] := by
  decide

/-- C2 amended: on an upstream docs push whose ref parses to the same
major as the latest branch, Policy A emits exactly the branch intent
followed by the current intent; Policy B emits the same two intents
provided the stripped ref additionally passes its anchored two-digit
gate test and parses to that same major. -/
theorem c2_same_line_two_intents (owner latest : String) (p : PushEvent) (m : Nat)
    (hrepo : p.repoFullName = owner ++ "/electron")
    (hdocs : areFilesInFolderChanged p "docs" = true)
    (hl : getMajor latest = some m) (hr : getMajor p.ref = some m) :
    pushIntentsA owner latest p =
      [⟨owner, "electronjs.org-new", "doc_changes_branches", p.after, some (stripRH p.ref)⟩,
       ⟨owner, "electronjs.org-new", "doc_changes", p.after, some (stripRH p.ref)⟩] ∧
    (canonicalTestS (stripRH p.ref) = true → getMajor (stripRH p.ref) = some m →
      pushIntentsB owner latest p =
        some [⟨owner, "website", "doc_changes_branches", p.after, some (stripRH p.ref)⟩,
              ⟨owner, "website", "doc_changes", p.after, some (stripRH p.ref)⟩]) := by
  have hlat : isLatest latest p.ref = true := by
    unfold isLatest
    rw [hl, hr]
    simp
  constructor
  · unfold pushIntentsA
    simp [hrepo, hdocs, hlat]
  · intro hcanon hbm
    have hst : shouldSendEvent owner latest p = some true := by
      rw [shouldSendEvent_true_iff]
      exact ⟨hrepo, hcanon, hdocs, m, m, hbm, hl, le_refl m⟩
    unfold pushIntentsB
    rw [hst]
    simp [hlat]

/-- Witness for the amended C2 on the canonical two-digit line 12. -/
theorem c2_witness :
    pushIntentsA "electron" "12-x-y" (mkPush "refs/heads/12-x-y") =
      [⟨"electron", "electronjs.org-new", "doc_changes_branches", "c0ffee01", some "12-x-y"⟩,
       ⟨"electron", "electronjs.org-new", "doc_changes", "c0ffee01", some "12-x-y"⟩] ∧
    pushIntentsB "electron" "12-x-y" (mkPush "refs/heads/12-x-y") =
      some [⟨"electron", "website", "doc_changes_branches", "c0ffee01", some "12-x-y"⟩,
            ⟨"electron", "website", "doc_changes", "c0ffee01", some "12-x-y"⟩] := by
  have h := c2_same_line_two_intents "electron" "12-x-y" (mkPush "refs/heads/12-x-y") 12
    (by decide) (by decide) (by decide) (by decide)
  exact ⟨h.1.trans (by decide), (h.2 (by decide) (by decide)).trans (by decide)⟩

/-- C3 fails on the code: all four gate conditions as the claim words
them hold for a docs push on refs/heads/100-x-y with latest branch
100-x-y, yet the part_000 router produces zero intents. -/
theorem c3_counterexample :
    specGateC3 "electron" "100-x-y" (mkPush "refs/heads/100-x-y") ∧
    pushIntentsB "electron" "100-x-y" (mkPush "refs/heads/100-x-y") = some [] := by
  exact ⟨⟨by decide, by decide, 100, 100, by decide, by decide, by decide⟩, by decide⟩

/-- C3 amended: the part_000 router emits at least one intent exactly
when the repo matches, the stripped ref passes the anchored one-or-two
digit gate pattern, docs are touched, and the stripped ref's parsed
major does not exceed the parsed latest major. -/
theorem c3_gate_iff (owner latest : String) (p : PushEvent) :
    (∃ l, pushIntentsB owner latest p = some l ∧ l ≠ []) ↔
      (p.repoFullName = owner ++ "/electron" ∧
       canonicalTestS (stripRH p.ref) = true ∧
       areFilesInFolderChanged p "docs" = true ∧
       ∃ mc ms, getMajor (stripRH p.ref) = some mc ∧ getMajor latest = some ms ∧ mc ≤ ms) :=
  (pushIntentsB_ne_nil_iff owner latest p).trans (shouldSendEvent_true_iff owner latest p)

/-- C8 fails on the code for a three-digit older line: the ref parses
to major 100, strictly below the latest major 123, the push passes repo
and docs conditions, yet Policy B emits zero intents instead of the
single branch intent. -/
theorem c8_counterexample :
    getMajor "refs/heads/100-x-y" = some 100 ∧
    getMajor "123-x-y" = some 123 ∧
    (mkPush "refs/heads/100-x-y").repoFullName = "electron" ++ "/electron" ∧
    areFilesInFolderChanged (mkPush "refs/heads/100-x-y") "docs" = true ∧
    pushIntentsB "electron" "123-x-y" (mkPush "refs/heads/100-x-y") = some [] := by
  decide

/-- C8 amended: on an upstream docs push whose ref parses strictly
below the latest major, Policy A emits exactly the single branch intent
and no current intent; Policy B does the same provided the stripped ref
additionally passes its anchored two-digit gate test and parses to the
same major. -/
theorem c8_older_line_single_intent (owner latest : String) (p : PushEvent) (m L : Nat)
    (hrepo : p.repoFullName = owner ++ "/electron")
    (hdocs : areFilesInFolderChanged p "docs" = true)
    (hl : getMajor latest = some L) (hr : getMajor p.ref = some m) (hlt : m < L) :
    pushIntentsA owner latest p =
      [⟨owner, "electronjs.org-new", "doc_changes_branches", p.after, some (stripRH p.ref)⟩] ∧
    (canonicalTestS (stripRH p.ref) = true → getMajor (stripRH p.ref) = some m →
      pushIntentsB owner latest p =
        some [⟨owner, "website", "doc_changes_branches", p.after, some (stripRH p.ref)⟩]) := by
  have hlat : isLatest latest p.ref = false := by
    unfold isLatest
    rw [hl, hr]
    simp [hlt]
  constructor
  · unfold pushIntentsA
    simp [hrepo, hdocs, hlat]
  · intro hcanon hbm
    have hst : shouldSendEvent owner latest p = some true := by
      rw [shouldSendEvent_true_iff]
      exact ⟨hrepo, hcanon, hdocs, m, L, hbm, hl, le_of_lt hlt⟩
    unfold pushIntentsB
    rw [hst]
    simp [hlat]

/-- Witness for the amended C8 on the older line 1 against latest 12. -/
theorem c8_witness :
    pushIntentsA "electron" "12-x-y" (mkPush "refs/heads/1-x-y") =
      [⟨"electron", "electronjs.org-new", "doc_changes_branches", "c0ffee01", some "1-x-y"⟩] ∧
    pushIntentsB "electron" "12-x-y" (mkPush "refs/heads/1-x-y") =
      some [⟨"electron", "website", "doc_changes_branches", "c0ffee01", some "1-x-y"⟩] := by
  have h := c8_older_line_single_intent "electron" "12-x-y" (mkPush "refs/heads/1-x-y") 1 12
    (by decide) (by decide) (by decide) (by decide) (by decide)
  exact ⟨h.1.trans (by decide), (h.2 (by decide) (by decide)).trans (by decide)⟩

/-- Reduction of the release handler when coercion of the tag fails:
the null result is dereferenced before any dispatch, so nothing is sent
and no response is produced. -/
theorem releaseResultP1_coerce_none (owner : String) (rv : String → String → String)
    (info : LatestInfo) (e : ReleaseEvent)
    (h : coerceTriple (stripV e.tagName) = none) :
    releaseResultP1 owner rv info e = ([], none) := by
  simp only [releaseResultP1, h]

/-- Reduction of the release handler when the tag coerces and the
latest version parses. -/
theorem releaseResultP1_some_some (owner : String) (rv : String → String → String)
    (info : LatestInfo) (e : ReleaseEvent) (t v : Nat × Nat × Nat)
    (h : coerceTriple (stripV e.tagName) = some t)
    (hv : parseStableTriple info.version = some v) :
    releaseResultP1 owner rv info e =
      if e.action == "released" && !e.draft && !e.prerelease && (renderV t == stripV e.tagName) then
        if tripleLe v t then
          ([⟨owner, "electronjs.org-new", "doc_changes", rv e.repoFullName e.tagName, none⟩], some 200)
        else ([], some 200)
      else ([], some 200) := by
  simp only [releaseResultP1, h, hv]

/-- C4: assuming the known latest published version is a stable triple,
the release handler issues exactly the single sha-only intent when and
only when the action is released, the release is neither draft nor
prerelease, the stripped tag coerces back to itself, and the tag is at
least the latest version; in every other case it issues nothing. -/
theorem c4_release_iff (owner : String) (rv : String → String → String)
    (info : LatestInfo) (e : ReleaseEvent) (v : Nat × Nat × Nat)
    (hv : parseStableTriple info.version = some v) :
    ((releaseResultP1 owner rv info e).1 =
        [⟨owner, "electronjs.org-new", "doc_changes", rv e.repoFullName e.tagName, none⟩] ↔
      (e.action = "released" ∧ e.draft = false ∧ e.prerelease = false ∧
       stableRoundTrip (stripV e.tagName) = true ∧
       ∃ t, coerceTriple (stripV e.tagName) = some t ∧ tripleLe v t = true)) ∧
    ((releaseResultP1 owner rv info e).1 =
        [⟨owner, "electronjs.org-new", "doc_changes", rv e.repoFullName e.tagName, none⟩] ∨
     (releaseResultP1 owner rv info e).1 = []) := by
  cases hct : coerceTriple (stripV e.tagName) with
  | none =>
    rw [releaseResultP1_coerce_none owner rv info e hct]
    refine ⟨?_, Or.inr rfl⟩
    simp [stableRoundTrip, hct]
  | some t =>
    rw [releaseResultP1_some_some owner rv info e t v hct hv]
    have hrt : stableRoundTrip (stripV e.tagName) = (renderV t == stripV e.tagName) := by
      simp [stableRoundTrip, hct]
    refine ⟨⟨?_, ?_⟩, ?_⟩
    · intro hL
      by_cases hcond :
          (e.action == "released" && !e.draft && !e.prerelease && (renderV t == stripV e.tagName)) = true
      · rw [if_pos hcond] at hL
        by_cases hle : tripleLe v t = true
        · rw [Bool.and_eq_true, Bool.and_eq_true, Bool.and_eq_true] at hcond
          obtain ⟨⟨⟨ha, hd⟩, hp⟩, hs⟩ := hcond
          refine ⟨beq_iff_eq.mp ha, ?_, ?_, hrt.trans hs, t, rfl, hle⟩
          · simpa using hd
          · simpa using hp
        · rw [if_neg hle] at hL
          exact absurd hL (by simp)
      · rw [if_neg hcond] at hL
        exact absurd hL (by simp)
    · rintro ⟨ha, hd, hp, hs, t', ht', hle⟩
      injection ht' with heq
      subst heq
      have hcond :
          (e.action == "released" && !e.draft && !e.prerelease && (renderV t == stripV e.tagName)) = true := by
        simp [ha, hd, hp, hrt.symm.trans hs]
      rw [if_pos hcond, if_pos hle]
    · split
      · split
        · exact Or.inl rfl
        · exact Or.inr rfl
      · exact Or.inr rfl

/-- Witness for C4: the stable release v12.0.7 above latest 12.0.6
yields exactly the single sha-only intent. -/
theorem c4_witness :
    (releaseResultP1 "electron" shaOfTag infoLatest relGood).1 =
      [⟨"electron", "electronjs.org-new", "doc_changes",
        shaOfTag relGood.repoFullName relGood.tagName, none⟩] := by
  have h := c4_release_iff "electron" shaOfTag infoLatest relGood (12, 0, 6) (by decide)
  exact h.1.mpr ⟨by decide, by decide, by decide, by decide, (12, 0, 7), by decide, by decide⟩

/-- C5 fails on the code: a release whose tag has no coercible version
makes the part_001 handler dereference null before responding, so this
recognized, integrity-passing event gets no HTTP response at all (and
produces no intent either). -/
theorem c5_counterexample :
    coerceTriple (stripV relJunk.tagName) = none ∧
    eventResponseP1 "electron" shaOfTag infoLatest (Inbound.release relJunk) = none ∧
    (releaseResultP1 "electron" shaOfTag infoLatest relJunk).1 = [] := by
  decide

/-- C5 amended: every recognized event is answered 200 by the current
router, and by the part_001 router as long as a release tag coerces to
some version and the known latest version parses; only that handler's
coercion null-dereference escapes the 200 guarantee. -/
theorem c5_always_200 (owner : String) (rv : String → String → String)
    (info : LatestInfo) (ev : Inbound)
    (hv : (parseStableTriple info.version).isSome = true)
    (hc : ∀ e, ev = Inbound.release e → (coerceTriple (stripV e.tagName)).isSome = true)
    (hrec : ∀ s, ev ≠ Inbound.other s) :
    eventResponseCurrent ev = some 200 ∧ eventResponseP1 owner rv info ev = some 200 := by
  cases ev with
  | ping => exact ⟨rfl, rfl⟩
  | push p => exact ⟨rfl, rfl⟩
  | other s => exact absurd rfl (hrec s)
  | release e =>
    refine ⟨rfl, ?_⟩
    obtain ⟨t, hct⟩ := Option.isSome_iff_exists.mp (hc e rfl)
    obtain ⟨v, hpv⟩ := Option.isSome_iff_exists.mp hv
    show (releaseResultP1 owner rv info e).2 = some 200
    rw [releaseResultP1_some_some owner rv info e t v hct hpv]
    split
    · split <;> rfl
    · rfl

/-- Witness for the amended C5 on a well-formed stable release. -/
theorem c5_witness :
    eventResponseCurrent (Inbound.release relGood) = some 200 ∧
    eventResponseP1 "electron" shaOfTag infoLatest (Inbound.release relGood) = some 200 :=
  c5_always_200 "electron" shaOfTag infoLatest (Inbound.release relGood) (by decide)
    (by
      intro e he
      injection he with h
      subst h
      decide)
    (by
      intro s h
      exact Inbound.noConfusion h)

/-- C6 fails on the part_003 variant of the sender: with no try/catch
around the outbound call, a failing dispatch rejects the caller, and a
handler awaiting it produces no 200 response. -/
theorem c6_counterexample :
    sendDispatchP3 (Except.error "dispatch failed") = ⟨some "dispatch failed"⟩ ∧
    handlerAfterSend (sendDispatchP3 (Except.error "dispatch failed")) = none :=
  ⟨rfl, rfl⟩

/-- C6 amended: the sender of src/utils/utils.js catches every outcome
of the outbound call, so nothing reaches its caller and the awaiting
webhook handler still responds 200; only the historical part_003 sender
propagates the failure. -/
theorem c6_sender_swallows (net : Except String Unit) :
    (sendDispatchCurrent net).raised = none ∧
    handlerAfterSend (sendDispatchCurrent net) = some 200 := by
  cases net <;> exact ⟨rfl, rfl⟩
